import Mathlib

/-! Verification development.
Shallow embedding of the quiz application `src/quizvocacional/app.py`
(scoring, CSV result store, dashboard aggregation, and the Gemini
description fallback), together with theorems settling the specified
properties.

Conventions:
* Python dicts with a fixed literal key set are embedded as association
  lists in insertion order (Python 3.7+ dicts iterate in insertion order).
* Python exceptions that escape a function are embedded as `Option`/match
  failure (`none`); exceptions caught inside the function are embedded by
  matching on an `Except`-valued environment field.
* Python floats are embedded as exact rationals (`ℚ`).
-/

namespace Quiz

/-- The category registry `CARREIRAS`, in source insertion order:
`{"advocacia": ..., "magistratura": ..., "ministerio_publico": ..., "consultoria": ...}`. -/
def CARREIRAS : List (String × String) :=
  [("advocacia", "Advocacia"),
   ("magistratura", "Magistratura"),
   ("ministerio_publico", "Ministério Público"),
   ("consultoria", "Consultoria Jurídica")]

/-- The registry's key iteration order (`CARREIRAS.keys()`). -/
def carreiraCodes : List String := CARREIRAS.map Prod.fst

/-- The static description table `DESCRICOES_BASE` (texts abbreviated to their
opening words; only identity of the returned string matters to the claims). -/
def DESCRICOES_BASE : List (String × String) :=
  [("advocacia", "A Advocacia envolve a defesa direta de interesses de clientes..."),
   ("magistratura", "A Magistratura é marcada pela imparcialidade..."),
   ("ministerio_publico", "O Ministério Público atua na defesa da ordem jurídica..."),
   ("consultoria", "A Consultoria Jurídica concentra-se na prevenção de conflitos...")]

/-- Lookup `DESCRICOES_BASE.get(codigo, "")`: dictionary get with default `""`. -/
def descricaoBase (codigo : String) : String :=
  ((DESCRICOES_BASE.find? (fun p => p.1 = codigo)).map Prod.snd).getD ""

/-- Embedding of `resultados = {c: 0 for c in CARREIRAS.keys()}` followed by the counting
loop: for each answer value, increment its counter when the value is a
registry key.  An answer is `none` when the question is unanswered. -/
def tally (codes : List String) (respostas : List (Option String)) :
    List (String × Nat) :=
  codes.map (fun c => (c, (respostas.filter (fun r => r = some c)).length))

/-- One step of Python `max`: keep the current best unless the next element
is strictly greater (so ties keep the earlier element). -/
def pyStep (best q : String × Nat) : String × Nat :=
  if best.2 < q.2 then q else best

/-- Python `max(d, key=d.get)` over an association list in iteration order:
fold that replaces the current best only on a strictly greater count, hence
returns the first maximizer; `none` embeds the `ValueError` raised by
`max()` on an empty dict. -/
def pyMax (t : List (String × Nat)) : Option (String × Nat) :=
  match t with
  | [] => none
  | p :: ps => some (ps.foldl pyStep p)

/-- Scorer `calcular_resultados` generalized over the registry key list, as §4.1 of
the spec's Scorer contract parametrizes it.  `none` embeds the exception
raised by `max` over an empty tally dict (empty registry). -/
def calcularResultadosGen (codes : List String) (respostas : List (Option String)) :
    Option (List (String × Nat) × String) :=
  let resultados := tally codes respostas
  match pyMax resultados with
  | some best => some (resultados, best.1)
  | none => none

/-- Source scorer `calcular_resultados(respostas_usuario)`, over the
concrete registry `CARREIRAS` (which is nonempty, so the `max` call cannot
fail; the `none` branch of `pyMax` is unreachable here and is mapped to a
dummy winner `""`). -/
def calcular_resultados (respostas : List (Option String)) :
    List (String × Nat) × String :=
  let resultados := tally carreiraCodes respostas
  match pyMax resultados with
  | some best => (resultados, best.1)
  | none => (resultados, "")

/-- Sum of the per-category counts (`sum(resultados.values())`). -/
def sumCounts (t : List (String × Nat)) : Nat := (t.map Prod.snd).sum

/-- Maximum per-category count (0 on an empty tally). -/
def maxCount (t : List (String × Nat)) : Nat := (t.map Prod.snd).foldr max 0

example : calcular_resultados [some "advocacia", some "magistratura"] =
    ([("advocacia", 1), ("magistratura", 1), ("ministerio_publico", 0),
      ("consultoria", 0)], "advocacia") := by decide

example : calcularResultadosGen [] [some "advocacia"] = none := by decide

/-! Result store: `salvar_resultado_csv` and the dashboard's CSV read.
The on-disk `resultados.csv` is embedded as `Option (List Linha)`: `none`
when the file does not exist (reading it raises `FileNotFoundError`),
`some rows` when it holds the listed rows in order. -/

/-- One persisted row (the `linha` dict of `salvar_resultado_csv`):
`timestamp`, `nome`, `carreira_final`, then per category the pair of
columns `pontos_<codigo>` and `perc_<codigo>`. -/
structure Linha where
  timestamp : String
  nome : String
  carreira_final : String
  cols : List (String × Nat × ℚ)
  deriving DecidableEq, Repr

/-- The denominator `total = sum(resultados.values()) or 1`: the sum when it
is nonzero (truthy), else `1`. -/
def pyTotal (resultados : List (String × Nat)) : Nat :=
  if sumCounts resultados = 0 then 1 else sumCounts resultados

/-- Row construction inside `salvar_resultado_csv`: `nome if nome else ""`,
and for each `(codigo, pontos)` of `resultados` the columns
`pontos_<codigo> = pontos` and `perc_<codigo> = pontos / total * 100`. -/
def mkLinha (ts nome : String) (resultados : List (String × Nat))
    (carreira_final : String) : Linha :=
  { timestamp := ts
    nome := if nome ≠ "" then nome else ""
    carreira_final := carreira_final
    cols := resultados.map
      (fun p => (p.1, p.2, (p.2 : ℚ) / (pyTotal resultados : ℚ) * 100)) }

/-- Embedding of `salvar_resultado_csv(nome, resultados, carreira_final)`
acting on the file state: read the existing rows and append the new row, or
start the file with the single new row when reading raises
`FileNotFoundError`; `ts` stands for `datetime.now().isoformat()`. -/
def salvar_resultado_csv (ts nome : String) (resultados : List (String × Nat))
    (carreira_final : String) (file : Option (List Linha)) :
    Option (List Linha) :=
  let nova_linha := mkLinha ts nome resultados carreira_final
  match file with
  | some existente => some (existente ++ [nova_linha])
  | none => some [nova_linha]

/-- One quiz completion to be persisted: the arguments a single
`salvar_resultado_csv` call receives. -/
structure Entrada where
  ts : String
  nome : String
  resultados : List (String × Nat)
  carreira_final : String

/-- Sequential appends: run `salvar_resultado_csv` once per entry, threading
the file state. -/
def appendAll (entradas : List Entrada) (file : Option (List Linha)) :
    Option (List Linha) :=
  entradas.foldl
    (fun st e => salvar_resultado_csv e.ts e.nome e.resultados e.carreira_final st) file

/-- Reading the full record set as the dashboard does: `pd.read_csv` yields
the stored rows; a missing file raises `FileNotFoundError`, which the
dashboard catches and treats as the no-data state, so the loaded sequence
is empty. -/
def load_all : Option (List Linha) → List Linha
  | none => []
  | some rows => rows

/-! Dashboard aggregation (module level, dashboard tab):
`dist = df_res["carreira_final"].value_counts()`, then
`dist["Percentual"] = dist["qtd"] / dist["qtd"].sum() * 100`. -/

/-- Stable insert for sorting by count descending (ties keep the earlier
element first), matching the order `pandas.Series.value_counts` reports. -/
def insertByCountDesc (p : String × Nat) :
    List (String × Nat) → List (String × Nat)
  | [] => [p]
  | q :: qs => if q.2 ≤ p.2 then p :: q :: qs else q :: insertByCountDesc p qs

/-- Embedding of `value_counts()` on a column: one entry per distinct value
that occurs (first-occurrence order), with its number of occurrences,
sorted by count descending.  Values that never occur get no entry. -/
def value_counts (col : List String) : List (String × Nat) :=
  ((col.eraseDups).map (fun v => (v, col.count v))).foldr insertByCountDesc []

/-- The dashboard's percentage column:
`dist["qtd"] / dist["qtd"].sum() * 100` applied to each entry of the
`value_counts` result. -/
def distPercent (dist : List (String × Nat)) : List (String × ℚ) :=
  dist.map (fun p => (p.1, (p.2 : ℚ) / (sumCounts dist : ℚ) * 100))

/-- What the dashboard tab renders. -/
inductive DashView where
  | noData
  | stats (total : Nat) (dist : List (String × Nat)) (percs : List (String × ℚ))
  deriving DecidableEq, Repr

/-- The dashboard tab: `pd.read_csv("resultados.csv")` then aggregation, or
the "Ainda não há dados suficientes" info message when the read raises
`FileNotFoundError`. -/
def dashboardRender (file : Option (List Linha)) : DashView :=
  match file with
  | none => .noData
  | some rows =>
      let dist := value_counts (rows.map Linha.carreira_final)
      .stats rows.length dist (distPercent dist)

/-! PDF report: the percentage loop of `gerar_pdf_relatorio` (lines 201-205),
`total = sum(resultados.values()) or 1` and `perc = pontos / total * 100`. -/

/-- The per-category percentages printed by `gerar_pdf_relatorio`. -/
def pdfPercs (resultados : List (String × Nat)) : List (String × ℚ) :=
  resultados.map (fun p => (p.1, (p.2 : ℚ) / (pyTotal resultados : ℚ) * 100))

/-! Quiz submission handler (module level, quiz tab, after
`st.form_submit_button`): validate, then score, display, save. -/

/-- Outcome of one submission: the validation error message, or the
processed result (scores and winner). -/
inductive Outcome where
  | validationError
  | processed (resultados : List (String × Nat)) (carreira_final : String)
  deriving DecidableEq, Repr

/-- Embedding of the submission handler:
`if any(v is None for v in respostas_usuario.values())` show the error and
stop; else score with `calcular_resultados` and append via
`salvar_resultado_csv`.  Returns the outcome and the new file state. -/
def submitQuiz (respostas : List (Option String)) (ts nome : String)
    (file : Option (List Linha)) : Outcome × Option (List Linha) :=
  if respostas.any (fun v => v.isNone) then
    (.validationError, file)
  else
    let res := calcular_resultados respostas
    (.processed res.1 res.2, salvar_resultado_csv ts nome res.1 res.2 file)

/-! Gemini enrichment: `get_gemini_descricao`.  Every interaction with the
outside world (library import, key lookup, SDK calls) is an input, collected
in `GeminiEnv`; `Except Unit α` fields embed calls that may raise (`.error`)
or return a value (`.ok`). -/

/-- The external world as `get_gemini_descricao` observes it. -/
structure GeminiEnv where
  /-- `GEMINI_LIB_DISPONIVEL`: the `google.genai` import succeeded. -/
  libAvailable : Bool
  /-- Result of `st.secrets.get("GEMINI_API_KEY")`; `.error` when accessing
  secrets raises, `.ok none` when the key is absent. -/
  secretsKey : Except Unit (Option String)
  /-- `os.environ.get("GEMINI_API_KEY")`. -/
  envKey : Option String
  /-- Result of `genai.Client()`: `.error` when construction raises. -/
  clientOk : Except Unit Unit
  /-- Result of `client.models.generate_content(...)`: `.error` when the
  call raises, otherwise `getattr(r, "text", None)` (with `some ""` for an
  empty text attribute). -/
  generateContent : Except Unit (Option String)
  /-- Result of `genai.generate_text(...)`: `.error` when the call raises
  (e.g. the attribute does not exist on this SDK version), otherwise
  `getattr(res, "text", None)`. -/
  generateText : Except Unit (Option String)
  /-- The string `str(res)` of the `generate_text` response object. -/
  generateTextStr : String

/-- Python `str.strip()`: remove leading and trailing whitespace (embedded
structurally over the character list so it evaluates in the kernel). -/
def pyStrip (s : String) : String :=
  ⟨((s.data.dropWhile Char.isWhitespace).reverse.dropWhile
      Char.isWhitespace).reverse⟩

/-- Python truthiness of an optional string (`if not api_key`, `if texto`):
present and nonempty. -/
def strTruthy : Option String → Bool
  | none => false
  | some s => s ≠ ""

/-- The API key resolution: `st.secrets.get` (a raise means no key from
secrets), falling back to `os.environ.get` when falsy. -/
def resolveApiKey (env : GeminiEnv) : Option String :=
  let fromSecrets : Option String :=
    match env.secretsKey with
    | .ok k => k
    | .error _ => none
  if strTruthy fromSecrets then fromSecrets else env.envKey

/-- Embedding of `get_gemini_descricao(carreira_codigo)`.  The result is a
plain `String`: every exception a collaborator can raise is caught inside
the source function (each `try`/`except` is a `match` on the environment
field), so no exception escapes. -/
def get_gemini_descricao (env : GeminiEnv) (carreira_codigo : String) : String :=
  let descricao_base := descricaoBase carreira_codigo
  if !env.libAvailable then descricao_base
  else
    let api_key := resolveApiKey env
    if !strTruthy api_key then descricao_base
    else
      -- outer try (lines 107-137); genai.configure failures are swallowed
      -- and produce no value
      let attempt1 : Option String :=
        match env.clientOk with
        | .error _ => none          -- client = None, skip the if-block
        | .ok _ =>
            match env.generateContent with
            | .error _ => none      -- caught, continue to the alternative
            | .ok texto => if strTruthy texto then some (pyStrip (texto.getD "")) else none
      match attempt1 with
      | some enriched => enriched
      | none =>
          let attempt2 : Option String :=
            match env.generateText with
            | .error _ => none      -- caught by the inner except, pass
            | .ok text =>
                -- texto = getattr(res, "text", None) or str(res)
                let texto := if strTruthy text then text.getD ""
                             else env.generateTextStr
                if texto ≠ "" then some (pyStrip texto) else none
          match attempt2 with
          | some enriched => enriched
          | none => descricao_base

/-- A Gemini environment in which the external service is unavailable: the
library is missing, or no API key resolves, or both generation attempts
raise an exception. -/
def serviceUnavailable (env : GeminiEnv) : Prop :=
  env.libAvailable = false ∨
  strTruthy (resolveApiKey env) = false ∨
  ((env.clientOk = .error () ∨ env.generateContent = .error () ∨
      env.generateContent = .ok none ∨ env.generateContent = .ok (some "")) ∧
    env.generateText = .error ())

/-! Lemmas about the `max` fold of the scorer. -/

theorem pyStep_fst (p q : String × Nat) : pyStep p q = p ∨ pyStep p q = q := by
  unfold pyStep; split
  · exact Or.inr rfl
  · exact Or.inl rfl

theorem le_pyStep_left (p q : String × Nat) : p.2 ≤ (pyStep p q).2 := by
  unfold pyStep; split <;> omega

theorem le_pyStep_right (p q : String × Nat) : q.2 ≤ (pyStep p q).2 := by
  unfold pyStep; split <;> omega

/-- Every element of the list (start included) has count at most the fold's
count. -/
theorem le_pyFold (ps : List (String × Nat)) :
    ∀ p, ∀ r ∈ p :: ps, r.2 ≤ (ps.foldl pyStep p).2 := by
  induction ps with
  | nil =>
      intro p r hr
      simp only [List.mem_singleton] at hr
      subst hr; exact le_refl _
  | cons q qs ih =>
      intro p r hr
      simp only [List.foldl_cons]
      rcases List.mem_cons.mp hr with h | h
      · subst h
        exact le_trans (le_pyStep_left r q)
          (ih (pyStep r q) (pyStep r q) (List.mem_cons_self _ _))
      · rcases List.mem_cons.mp h with h | h
        · subst h
          exact le_trans (le_pyStep_right p r)
            (ih (pyStep p r) (pyStep p r) (List.mem_cons_self _ _))
        · exact ih (pyStep p q) r (List.mem_cons_of_mem _ h)

/-- The fold's result is one of the elements (start included). -/
theorem pyFold_mem (ps : List (String × Nat)) :
    ∀ p, ps.foldl pyStep p ∈ p :: ps := by
  induction ps with
  | nil => intro p; simp
  | cons q qs ih =>
      intro p
      simp only [List.foldl_cons]
      rcases List.mem_cons.mp (ih (pyStep p q)) with h | h
      · rcases pyStep_fst p q with hs | hs
        · rw [h, hs]; exact List.mem_cons_self _ _
        · rw [h, hs]
          exact List.mem_cons_of_mem _ (List.mem_cons_self _ _)
      · exact List.mem_cons_of_mem _ (List.mem_cons_of_mem _ h)

/-- The fold's result is the first element attaining its count: searching
for the first element with count at least the fold's finds the fold. -/
theorem pyFold_find (ps : List (String × Nat)) :
    ∀ p, (p :: ps).find? (fun r => decide ((ps.foldl pyStep p).2 ≤ r.2)) =
      some (ps.foldl pyStep p) := by
  induction ps with
  | nil =>
      intro p
      simp [List.find?]
  | cons q qs ih =>
      intro p
      simp only [List.foldl_cons]
      by_cases hpq : p.2 < q.2
      · have hstep : pyStep p q = q := by unfold pyStep; simp [hpq]
        simp only [hstep]
        have hq : q.2 ≤ (qs.foldl pyStep q).2 :=
          le_pyFold qs q q (List.mem_cons_self _ _)
        have hp : ¬ ((qs.foldl pyStep q).2 ≤ p.2) := by omega
        rw [List.find?_cons_of_neg _ (by simpa using hp)]
        exact ih q
      · have hstep : pyStep p q = p := by unfold pyStep; simp [hpq]
        simp only [hstep]
        have hih := ih p
        by_cases hfp : (qs.foldl pyStep p).2 ≤ p.2
        · rw [List.find?_cons_of_pos _ (by simpa using hfp)] at hih
          rw [List.find?_cons_of_pos _ (by simpa using hfp)]
          exact hih
        · rw [List.find?_cons_of_neg _ (by simpa using hfp)] at hih
          have hq2 : ¬ ((qs.foldl pyStep p).2 ≤ q.2) := by omega
          rw [List.find?_cons_of_neg _ (by simpa using hfp),
            List.find?_cons_of_neg _ (by simpa using hq2)]
          exact hih

theorem le_maxCount {t : List (String × Nat)} {x : String × Nat}
    (h : x ∈ t) : x.2 ≤ maxCount t := by
  induction t with
  | nil => cases h
  | cons p ps ih =>
      simp only [maxCount, List.map_cons, List.foldr_cons]
      rcases List.mem_cons.mp h with h | h
      · subst h; exact le_max_left _ _
      · exact le_trans (ih h) (le_max_right _ _)

theorem maxCount_le {t : List (String × Nat)} {m : Nat}
    (h : ∀ x ∈ t, x.2 ≤ m) : maxCount t ≤ m := by
  induction t with
  | nil => exact Nat.zero_le _
  | cons p ps ih =>
      simp only [maxCount, List.map_cons, List.foldr_cons]
      exact max_le (h p (List.mem_cons_self _ _))
        (ih (fun x hx => h x (List.mem_cons_of_mem _ hx)))

/-- On a nonempty tally the fold's count is the maximum count. -/
theorem pyFold_maxCount (p : String × Nat) (ps : List (String × Nat)) :
    (ps.foldl pyStep p).2 = maxCount (p :: ps) :=
  le_antisymm (le_maxCount (pyFold_mem ps p))
    (maxCount_le (le_pyFold ps p))

/-- On a nonempty tally, `pyMax` returns the first maximizer paired with the
maximum count. -/
theorem pyMax_cons_spec (p : String × Nat) (ps : List (String × Nat)) :
    pyMax (p :: ps) = some ((ps.foldl pyStep p).1, maxCount (p :: ps)) ∧
    (p :: ps).find? (fun r => decide (maxCount (p :: ps) ≤ r.2)) =
      some ((ps.foldl pyStep p).1, maxCount (p :: ps)) := by
  have hmc := pyFold_maxCount p ps
  constructor
  · show some (ps.foldl pyStep p) = _
    rw [← hmc]
  · have := pyFold_find ps p
    rw [hmc] at this
    rw [this, ← hmc]

/-- The first component returned by `calcular_resultados` is always the
tally over the registry. -/
theorem calcular_resultados_fst (respostas : List (Option String)) :
    (calcular_resultados respostas).1 = tally carreiraCodes respostas := by
  simp only [calcular_resultados]
  rcases h : pyMax (tally carreiraCodes respostas) with _ | best <;> simp [h]

/-- The tally over the concrete registry is a nonempty list (its head is the
`advocacia` entry). -/
theorem tally_carreiras_cons (respostas : List (Option String)) :
    tally carreiraCodes respostas =
      ("advocacia", (respostas.filter (fun r => r = some "advocacia")).length) ::
        tally ["magistratura", "ministerio_publico", "consultoria"] respostas := by
  rfl

/-- On the concrete registry, `calcular_resultados` returns the tally
(nonempty) and the winner computed by the `max` fold over it. -/
theorem calcular_resultados_eq (respostas : List (Option String)) :
    ∃ p ps, tally carreiraCodes respostas = p :: ps ∧
      calcular_resultados respostas = (p :: ps, (ps.foldl pyStep p).1) := by
  refine ⟨_, _, tally_carreiras_cons respostas, ?_⟩
  simp only [calcular_resultados]
  rw [tally_carreiras_cons respostas]
  rfl

/-! Lemmas about the tally's total count. -/

theorem sumCounts_tally_nil (codes : List String) :
    sumCounts (tally codes []) = 0 := by
  induction codes with
  | nil => rfl
  | cons d ds ih =>
      simp only [tally, List.map_cons, sumCounts, List.filter_nil,
        List.length_nil, List.sum_cons] at *
      simpa using ih

theorem sumCounts_tally_cons_code (d : String) (ds : List String)
    (rs : List (Option String)) :
    sumCounts (tally (d :: ds) rs) =
      (rs.filter (fun r => r = some d)).length + sumCounts (tally ds rs) := by
  simp [tally, sumCounts]

theorem tally_cons_not_mem {c₀ : String} {ds : List String} (h : c₀ ∉ ds)
    (rs : List (Option String)) :
    tally ds (some c₀ :: rs) = tally ds rs := by
  unfold tally
  apply List.map_congr_left
  intro c hc
  have hne : (some c₀ : Option String) ≠ some c := by
    simp only [ne_eq, Option.some.injEq]
    rintro rfl
    exact h hc
  simp [List.filter_cons, hne]

theorem filter_answer_cons_eq (c₀ : String) (rs : List (Option String)) :
    (List.filter (fun r => r = some c₀) (some c₀ :: rs)).length =
      (List.filter (fun r => r = some c₀) rs).length + 1 := by
  simp [List.filter_cons]

theorem filter_answer_cons_ne {c₀ d : String} (h : c₀ ≠ d)
    (rs : List (Option String)) :
    List.filter (fun r => r = some d) (some c₀ :: rs) =
      List.filter (fun r => r = some d) rs := by
  have hne : (some c₀ : Option String) ≠ some d := by
    simp only [ne_eq, Option.some.injEq]
    exact h
  simp [List.filter_cons, hne]

/-- A recognized answer increments the total count by exactly one (the
registry keys are distinct). -/
theorem sumCounts_tally_some (c₀ : String) (rs : List (Option String)) :
    ∀ codes : List String, codes.Nodup → c₀ ∈ codes →
      sumCounts (tally codes (some c₀ :: rs)) =
        sumCounts (tally codes rs) + 1 := by
  intro codes
  induction codes with
  | nil => intro _ hc; cases hc
  | cons d ds ih =>
      intro hnd hc
      rw [sumCounts_tally_cons_code, sumCounts_tally_cons_code]
      by_cases hd : c₀ = d
      · subst hd
        rw [filter_answer_cons_eq,
          tally_cons_not_mem (List.nodup_cons.mp hnd).1 rs]
        omega
      · rw [filter_answer_cons_ne hd rs]
        have hcds : c₀ ∈ ds := by
          rcases List.mem_cons.mp hc with h | h
          · exact absurd h hd
          · exact h
        rw [ih (List.nodup_cons.mp hnd).2 hcds]
        omega

/-- When every answer is a recognized code, the tally's total count equals
the number of answers. -/
theorem sumCounts_tally_all_recognized (codes : List String)
    (hnd : codes.Nodup) :
    ∀ respostas : List (Option String),
      (∀ v ∈ respostas, ∃ c ∈ codes, v = some c) →
      sumCounts (tally codes respostas) = respostas.length := by
  intro respostas
  induction respostas with
  | nil => intro _; rw [sumCounts_tally_nil]; rfl
  | cons a rs ih =>
      intro h
      obtain ⟨c, hc, rfl⟩ := h a (List.mem_cons_self _ _)
      rw [sumCounts_tally_some c rs codes hnd hc,
        ih (fun v hv => h v (List.mem_cons_of_mem _ hv))]
      rfl

/-! The claims about the scorer. -/

/-- C1.  For every answer set, the winner returned by
`calcular_resultados` is the first entry of the tally, in registry
(`CARREIRAS`) iteration order, whose count reaches the maximum per-category
count — so its count equals the maximum, and ties are broken by registry
order; in particular, 2 answers split between `advocacia` and
`magistratura` make `advocacia` the winner. -/
theorem claim_C1 :
    (∀ respostas : List (Option String),
        (calcular_resultados respostas).1.find?
            (fun p => decide (maxCount (calcular_resultados respostas).1 ≤ p.2)) =
          some ((calcular_resultados respostas).2,
            maxCount (calcular_resultados respostas).1)) ∧
    (calcular_resultados [some "advocacia", some "magistratura"]).2 =
      "advocacia" := by
  constructor
  · intro respostas
    obtain ⟨p, ps, ht, hcr⟩ := calcular_resultados_eq respostas
    rw [hcr]
    exact (pyMax_cons_spec p ps).2
  · decide

/-- C2.  When every answer is a recognized registry code, the per-category
counts returned by `calcular_resultados` sum to the number of answered
questions. -/
theorem claim_C2 (respostas : List (Option String))
    (h : ∀ v ∈ respostas, ∃ c ∈ carreiraCodes, v = some c) :
    sumCounts (calcular_resultados respostas).1 = respostas.length := by
  rw [calcular_resultados_fst]
  exact sumCounts_tally_all_recognized carreiraCodes (by decide) respostas h

/-- Witness for C2 at a concrete three-answer set. -/
theorem claim_C2_witness :
    sumCounts (calcular_resultados
      [some "advocacia", some "consultoria", some "advocacia"]).1 = 3 :=
  (claim_C2 [some "advocacia", some "consultoria", some "advocacia"]
    (by decide)).trans rfl

/-- C5.  The scorer (generalized over the registry, as the spec's
`score(answer_set, categories)` contract states it) fails exactly when the
category registry is empty — `none` embeds the exception raised by `max`
over the empty tally dict — and for a nonempty registry it returns a result
for every answer set. -/
theorem claim_C5 (codes : List String) (respostas : List (Option String)) :
    calcularResultadosGen codes respostas = none ↔ codes = [] := by
  cases codes with
  | nil => simp [calcularResultadosGen, tally, pyMax]
  | cons d ds => simp [calcularResultadosGen, tally, pyMax]

/-! Claims about the result store. -/

/-- Appending onto an existing file appends the built rows in order. -/
theorem appendAll_some (entradas : List Entrada) :
    ∀ rows : List Linha, appendAll entradas (some rows) =
      some (rows ++ entradas.map
        (fun e => mkLinha e.ts e.nome e.resultados e.carreira_final)) := by
  induction entradas with
  | nil => intro rows; simp [appendAll]
  | cons e es ih =>
      intro rows
      rw [show appendAll (e :: es) (some rows) =
          appendAll es (some (rows ++
            [mkLinha e.ts e.nome e.resultados e.carreira_final])) from rfl,
        ih (rows ++ [mkLinha e.ts e.nome e.resultados e.carreira_final])]
      simp

/-- C4.  Starting with no file, appending N records via
`salvar_resultado_csv` and then loading yields exactly those N records, in
append order, each being the row built from the values it was written
with. -/
theorem claim_C4 (entradas : List Entrada) :
    load_all (appendAll entradas none) =
      entradas.map (fun e => mkLinha e.ts e.nome e.resultados e.carreira_final) := by
  cases entradas with
  | nil => rfl
  | cons e es =>
      rw [show appendAll (e :: es) none =
          appendAll es (some [mkLinha e.ts e.nome e.resultados e.carreira_final])
          from rfl,
        appendAll_some es [mkLinha e.ts e.nome e.resultados e.carreira_final]]
      simp [load_all]

/-- C8.  A missing backing file is the normal no-data state: loading yields
the empty sequence (the dashboard catches `FileNotFoundError`), and the
first append creates the file holding exactly the single new row. -/
theorem claim_C8 :
    load_all none = [] ∧
    ∀ ts nome resultados carreira_final,
      salvar_resultado_csv ts nome resultados carreira_final none =
        some [mkLinha ts nome resultados carreira_final] :=
  ⟨rfl, fun _ _ _ _ => rfl⟩

/-! Claims about the submission handler. -/

/-- C6.  Any answer set with an unanswered (null) entry is rejected with the
user-visible validation error; the scorer is not invoked and the persisted
file state is returned unchanged. -/
theorem claim_C6 (respostas : List (Option String)) (ts nome : String)
    (file : Option (List Linha)) (h : none ∈ respostas) :
    submitQuiz respostas ts nome file = (.validationError, file) := by
  have hany : respostas.any (fun v => v.isNone) = true := by
    rw [List.any_eq_true]
    exact ⟨none, h, rfl⟩
  simp [submitQuiz, hany]

/-- Witness for C6: one unanswered question, rejected, file untouched. -/
theorem claim_C6_witness :
    submitQuiz [some "advocacia", none] "2024-01-01T00:00:00" "ana" none =
      (.validationError, none) :=
  claim_C6 [some "advocacia", none] "2024-01-01T00:00:00" "ana" none (by decide)

/-! Claims about the dashboard aggregation. -/

/-- C9.  Zero historical records (in this system: the file does not exist)
renders the no-data outcome, and the aggregation primitives applied to an
empty column yield empty results — no percentage is ever computed on a zero
total. -/
theorem claim_C9 :
    dashboardRender none = .noData ∧
    value_counts [] = [] ∧ distPercent [] = [] :=
  ⟨rfl, rfl, rfl⟩

/-- The 10-record winner column of claim C3: 7 `advocacia`, 3
`magistratura`. -/
def winners10 : List String :=
  List.replicate 7 "advocacia" ++ List.replicate 3 "magistratura"

/-- C3 counterexample.  The dashboard aggregation (`value_counts`) emits one
entry per value that actually occurs, so on the 7/3 record set there is no
explicit zero entry for `ministerio_publico` (nor for `consultoria`) —
contradicting the claimed counts mapping with explicit zeros. -/
theorem claim_C3_counterexample :
    (value_counts winners10).lookup "ministerio_publico" = none := by decide

/-- C3 (amended).  On the 7/3 record set the aggregation produces counts
`advocacia ↦ 7, magistratura ↦ 3` and percentages `70` and `30`, but
contains no entries at all for the categories with no records. -/
theorem claim_C3 :
    value_counts winners10 = [("advocacia", 7), ("magistratura", 3)] ∧
    distPercent (value_counts winners10) =
      [("advocacia", 70), ("magistratura", 30)] ∧
    (value_counts winners10).lookup "consultoria" = none := by
  refine ⟨by decide, ?_, by decide⟩
  rw [show value_counts winners10 = [("advocacia", 7), ("magistratura", 3)]
    from by decide]
  norm_num [distPercent, sumCounts]

/-! Claims about the Gemini enrichment fallback. -/

/-- A concrete environment for the C7 counterexample: library importable,
API key configured, `genai.Client()` raises, and the legacy
`genai.generate_text` succeeds but returns a malformed response carrying no
`text` attribute; `str(res)` is its object representation. -/
def malformedEnv : GeminiEnv :=
  { libAvailable := true
    secretsKey := .ok (some "key")
    envKey := none
    clientOk := .error ()
    generateContent := .ok none
    generateText := .ok none
    generateTextStr := "GenerateTextResponse()" }

/-- C7 counterexample.  Under a malformed `generate_text` response the
function returns `str(res)` (the `or str(res)` branch), not the static
description — so "returns exactly the static description under any
unavailability including malformed response" fails as stated. -/
theorem claim_C7_counterexample :
    get_gemini_descricao malformedEnv "advocacia" ≠ descricaoBase "advocacia" := by
  decide

/-- C7 (amended).  Whenever the library is missing, or no API key resolves,
or the first generation attempt produces no text and the second raises,
`get_gemini_descricao` returns exactly the static `DESCRICOES_BASE`
description (default `""`), unmodified; and it never raises — the embedding
returns a plain `String`, every collaborator exception being caught inside
the function. -/
theorem claim_C7 (env : GeminiEnv) (codigo : String)
    (h : serviceUnavailable env) :
    get_gemini_descricao env codigo = descricaoBase codigo := by
  unfold get_gemini_descricao
  rcases h with h | h | ⟨h1, h2⟩
  · simp [h]
  · cases hl : env.libAvailable
    · simp
    · simp [hl, h]
  · cases hl : env.libAvailable
    · simp
    · by_cases hk : strTruthy (resolveApiKey env)
      · simp only [hl, hk, Bool.not_true, Bool.false_eq_true, if_false]
        rcases h1 with hc | hc | hc | hc
        · simp [hc, h2]
        · cases hco : env.clientOk <;> simp [hco, hc, h2, strTruthy]
        · cases hco : env.clientOk <;> simp [hco, hc, h2, strTruthy]
        · cases hco : env.clientOk <;> simp [hco, hc, h2, strTruthy]
      · simp [hl, hk]

/-- An environment with the Gemini library missing. -/
def libMissingEnv : GeminiEnv :=
  { libAvailable := false
    secretsKey := .ok none
    envKey := none
    clientOk := .error ()
    generateContent := .error ()
    generateText := .error ()
    generateTextStr := "" }

/-- Witness for the amended C7: with the library missing the static
description for `advocacia` is returned. -/
theorem claim_C7_witness :
    get_gemini_descricao libMissingEnv "advocacia" = descricaoBase "advocacia" :=
  claim_C7 libMissingEnv "advocacia" (Or.inl rfl)

/-! Claim about the per-record percentage denominators. -/

/-- C10.  The denominator `sum(resultados.values()) or 1` is never zero, and
on an all-zero tally both `salvar_resultado_csv`'s row columns and
`gerar_pdf_relatorio`'s printed percentages carry percentage 0 for every
category instead of failing. -/
theorem claim_C10 :
    (∀ resultados : List (String × Nat), pyTotal resultados ≠ 0) ∧
    (∀ ts nome carreira_final : String, ∀ resultados : List (String × Nat),
      sumCounts resultados = 0 →
        (mkLinha ts nome resultados carreira_final).cols =
          resultados.map (fun p => (p.1, p.2, (0 : ℚ))) ∧
        pdfPercs resultados = resultados.map (fun p => (p.1, (0 : ℚ)))) := by
  constructor
  · intro resultados
    unfold pyTotal
    split
    · exact one_ne_zero
    · assumption
  · intro ts nome cf resultados h
    have hz : ∀ p ∈ resultados, p.2 = 0 := by
      intro p hp
      unfold sumCounts at h
      exact List.sum_eq_zero_iff.mp h p.2 (List.mem_map_of_mem _ hp)
    have hpt : pyTotal resultados = 1 := by unfold pyTotal; simp [h]
    constructor
    · show resultados.map _ = _
      apply List.map_congr_left
      intro p hp
      rw [hz p hp, hpt]
      norm_num
    · unfold pdfPercs
      apply List.map_congr_left
      intro p hp
      rw [hz p hp, hpt]
      norm_num

/-- Witness for C10 at the all-zero tally of the empty answer set. -/
theorem claim_C10_witness :
    pdfPercs (tally carreiraCodes []) =
      (tally carreiraCodes []).map (fun p => (p.1, (0 : ℚ))) :=
  (claim_C10.2 "2024-01-01T00:00:00" "" "advocacia"
    (tally carreiraCodes []) (by decide)).2

end Quiz
